import Mathlib

/- Verification of the CharmLive dashboard (src/app.py): the room-list cache
policy of the index page, the chat-roster micro-parser, the render-time
derivations (flag glyph, gender label, duration formatting) and the flat-file
persistence layer. Python strings are modelled as lists of characters so that
every definition evaluates inside the kernel; Python dict lookups with a
default are modelled by explicit defaults; the JSON files on disk are modelled
as an abstract store from path to the stored JSON value (the json module of
the standard library is treated as a faithful codec, so a file holds the
structured value that was dumped into it). -/

/-- PyStr models a Python string as its list of characters. -/
abbrev PyStr := List Char

/-- Python str.split with a one-character separator: "".split(sep) is [""],
"a,b".split(",") is ["a", "b"], ",,".split(",") is ["", "", ""]. -/
def splitOnChar (sep : Char) : PyStr → List PyStr
  | [] => [[]]
  | c :: cs =>
    match splitOnChar sep cs with
    | [] => [[]]
    | h :: t => if c = sep then [] :: h :: t else (c :: h) :: t

/-- Python str.lower, character by character (ASCII case mapping). -/
def pyLower (s : PyStr) : PyStr := s.map Char.toLower

/-- Python str.capitalize: first character upper-cased, the rest lower-cased;
the empty string is returned unchanged. -/
def pyCapitalize : PyStr → PyStr
  | [] => []
  | c :: cs => c.toUpper :: cs.map Char.toLower

/-- country_to_flag from src/app.py lines 13-17: a string of length other
than 2 (the falsy empty string included) yields the empty string; a 2-letter
code yields the two regional-indicator symbols chr(ord(c.upper()) + 127397).
The produced characters are modelled by their code points, so that the
arithmetic of the derivation is explicit. -/
def country_to_flag (country_code : PyStr) : List Nat :=
  match country_code with
  | [c0, c1] => [c0.toUpper.toNat + 127397, c1.toUpper.toNat + 127397]
  | _ => []

/-- gender_to_display from src/app.py lines 19-26: gender_map.get applied to
gender_code.lower(), with gender_code.capitalize() as the default. The dict
lookup is embedded as the corresponding chain of equality tests in the
insertion order of the dict literal. -/
def gender_to_display (gender_code : PyStr) : PyStr :=
  if pyLower gender_code = "f".data then "Female".data
  else if pyLower gender_code = "m".data then "Male".data
  else if pyLower gender_code = "t".data then "Trans".data
  else if pyLower gender_code = "c".data then "Couple".data
  else pyCapitalize gender_code

/-- format_duration from src/app.py lines 28-33, with the local variables
hours = seconds // 3600 and minutes = (seconds % 3600) // 60 inlined. -/
def format_duration (seconds : Nat) : String :=
  if 0 < seconds / 3600 then
    toString (seconds / 3600) ++ "h " ++ toString (seconds % 3600 / 60) ++ "m"
  else
    toString (seconds % 3600 / 60) ++ "m"

/-- ChatUser: one parsed record of the chat roster (route /room/username/users). -/
structure ChatUser where
  username : PyStr
  status : PyStr
  gender : PyStr
deriving DecidableEq

/-- gender_map.get(gender, gender) inside room_users (src/app.py lines
2313-2318): the fixed table m, f, t, c with the raw code as default. -/
def roster_gender_map (g : PyStr) : PyStr :=
  if g = "m".data then "Male".data
  else if g = "f".data then "Female".data
  else if g = "t".data then "Trans".data
  else if g = "c".data then "Couple".data
  else g

/-- one iteration of the roster loop (src/app.py lines 2308-2324): split the
record on the pipe character, keep it only when it has at least 3 parts, and
build the ChatUser from parts 0, 1 and the mapped part 2. -/
def parse_user_info (user_info : PyStr) : Option ChatUser :=
  match splitOnChar '|' user_info with
  | p0 :: p1 :: p2 :: _ => some ⟨p0, p1, roster_gender_map p2⟩
  | _ => none

/-- room_users_parse: the parsing step of room_users (src/app.py lines
2300-2324). users starts empty; when raw_data is truthy it is split on the
comma, and when more than one part results the parts after the first are
parsed one by one, malformed records being skipped. -/
def room_users_parse (raw : PyStr) : List ChatUser :=
  if raw = [] then []
  else
    if 1 < (splitOnChar ',' raw).length then
      ((splitOnChar ',' raw).drop 1).filterMap parse_user_info
    else []

/-- rosterSpecTable is written from the words of claim C4: the fixed lookup
m to Male, f to Female, t to Trans, c to Couple, unrecognized codes passed
through verbatim. -/
def rosterSpecTable (g : PyStr) : PyStr :=
  if g = "m".data then "Male".data
  else if g = "f".data then "Female".data
  else if g = "t".data then "Trans".data
  else if g = "c".data then "Couple".data
  else g

/-- rosterSpecRecord is written from the words of claim C4: split the record
on the pipe, silently skip it when fewer than 3 parts result, otherwise emit
parts 0 and 1 and the mapped part 2. -/
def rosterSpecRecord (s : PyStr) : Option ChatUser :=
  match splitOnChar '|' s with
  | p0 :: p1 :: p2 :: _ => some ⟨p0, p1, rosterSpecTable p2⟩
  | _ => none

/-- rosterSpec is written from the words of claim C4: split the input on the
comma, discard the first element, and parse each remaining element. -/
def rosterSpec (raw : PyStr) : List ChatUser :=
  ((splitOnChar ',' raw).drop 1).filterMap rosterSpecRecord

/-- Room: the fields of an upstream room object that the index page reads.
Fields read through dict.get with a default keep an Option where the claims
speak about the missing case (num_users); the other defaulted reads are
modelled with the default already applied. -/
structure Room where
  username : PyStr
  gender : PyStr
  country : PyStr
  num_users : Option Nat
  private_price : Int
  tags : List PyStr
  start_time : Option Nat
deriving DecidableEq

/-- CacheEnv: the persisted cache envelope of data/room_cache.json, the dict
with keys rooms and expires written by save_data. An absent key is subsumed
by its read default (expires absent reads as 0, which never exceeds now). -/
structure CacheEnv where
  rooms : List Room
  expires : Nat
deriving DecidableEq

/-- getRoomList: the cache-check step of index (src/app.py lines 2172-2185).
A missing, corrupt or empty cache file loads as the falsy empty dict, hence
none. When the envelope is present and expires is strictly greater than now,
the cached rooms are taken. Otherwise the source binds response to a
hard-coded string literal and then calls response.raise_for_status(), an
AttributeError on str, so the branch raises before any HTTP request is made
and produces no rooms: modelled as none. -/
def getRoomList (cache : Option CacheEnv) (now : Nat) : Option (List Room) :=
  match cache with
  | some c => if now < c.expires then some c.rooms else none
  | none => none

/-- viewers: r.get("num_users", 0), the sort key and stats contribution. -/
def viewers (r : Room) : Nat := r.num_users.getD 0

/-- roomOrder: the order of rooms.sort(key num_users, reverse=True), read as
a comes before b when the viewer count of b is at most that of a. -/
def roomOrder (a b : Room) : Prop := viewers b ≤ viewers a

instance : DecidableRel roomOrder :=
  fun a b => inferInstanceAs (Decidable (viewers b ≤ viewers a))

instance : IsTotal Room roomOrder :=
  ⟨fun a b => Nat.le_total (viewers b) (viewers a)⟩

instance : IsTrans Room roomOrder :=
  ⟨fun _ _ _ h h2 => Nat.le_trans h2 h⟩

/-- sortRooms models rooms.sort(key=lambda r: r.get("num_users", 0),
reverse=True) (src/app.py line 2187). Both are stable sorts by the same key,
and any two stable sorts by one key agree. -/
def sortRooms (rs : List Room) : List Room := rs.insertionSort roomOrder

/-- lexLe: code-point lexicographic order on strings, the order of Python
sorted on str. -/
def lexLe : PyStr → PyStr → Bool
  | [], _ => true
  | _ :: _, [] => false
  | a :: as, b :: bs => if a = b then lexLe as bs else decide (a < b)

instance lexLeRelDecidable : DecidableRel (fun a b : PyStr => lexLe a b = true) :=
  fun a b => inferInstanceAs (Decidable (lexLe a b = true))

/-- allTags: sorted set of the lower-cased tags of all rooms (src/app.py
line 2198). -/
def allTags (rs : List Room) : List PyStr :=
  (((rs.map Room.tags).flatten).map pyLower).dedup.insertionSort
    (fun a b => lexLe a b = true)

/-- DisplayRoom: a room after the enhancement loop of index (src/app.py
lines 2190-2195), which adds the flag, the display gender, the uptime and
the recomputed is_new to the room dict. -/
structure DisplayRoom where
  room : Room
  flag : List Nat
  gender_display : PyStr
  uptime : Int
  is_new : Bool
deriving DecidableEq

/-- enhance: one iteration of the enhancement loop; uptime is
int(current_time - room.get("start_time", current_time)). -/
def enhance (now : Nat) (r : Room) : DisplayRoom :=
  ⟨r, country_to_flag r.country, gender_to_display r.gender,
   (now : Int) - (r.start_time.getD now : Nat), decide (((now : Int) - (r.start_time.getD now : Nat)) < 900)⟩

/-- IndexResult: what one load of the index page produces, together with the
cache file state after the call and whether any upstream HTTP request was
issued during the call. -/
structure IndexResult where
  rooms : List DisplayRoom
  all_tags : List PyStr
  total_viewers : Nat
  private_rooms : Nat
  cacheAfter : Option CacheEnv
  fetched : Bool
deriving DecidableEq

/-- index (src/app.py lines 2168-2233): when the cache-check step yields
rooms they are sorted, enhanced, and the stats are computed over them; the
cache file is not rewritten on this path and no HTTP request is issued
anywhere in index (the dead fetch code after the hard-coded response string
is unreachable, see getRoomList). When the cache-check step raises, the
except branch renders the empty dashboard: empty rooms, empty tags, zero
stats, cache file untouched. The enhancement loop leaves num_users, tags and
private_price unchanged, so the stats are computed over the sorted rooms. -/
def index (cache : Option CacheEnv) (now : Nat) : IndexResult :=
  match getRoomList cache now with
  | some rooms =>
    ⟨(sortRooms rooms).map (enhance now),
     allTags (sortRooms rooms),
     ((sortRooms rooms).map viewers).sum,
     ((sortRooms rooms).filter (fun r => decide (0 < r.private_price))).length,
     cache, false⟩
  | none => ⟨[], [], 0, 0, cache, false⟩

/-- RefreshResult: what one call of the /api/refresh route produces. -/
structure RefreshResult where
  ok : Bool
  rooms : List Room
  cacheAfter : Option CacheEnv
deriving DecidableEq

/-- refresh_data (src/app.py lines 2371-2402): the one live upstream
room-list fetch of the repository. On success it stores the envelope with
expires = now + 60 and returns the fresh rooms; on failure it returns an
error payload and leaves the cache file untouched. The fetch outcome is the
fetchResult argument. -/
def refresh_data (fetchResult : Option (List Room)) (now : Nat)
    (cacheBefore : Option CacheEnv) : RefreshResult :=
  match fetchResult with
  | some rooms => ⟨true, rooms, some ⟨rooms, now + 60⟩⟩
  | none => ⟨false, [], cacheBefore⟩

/-- Json: the structured values held by the flat files (the json module of
the standard library is treated as a faithful codec). -/
inductive Json where
  | null : Json
  | bool (b : Bool) : Json
  | num (n : Int) : Json
  | str (s : String) : Json
  | arr (xs : List Json) : Json
  | obj (kvs : List (String × Json)) : Json

/-- FS: the data directory, a map from file path to the JSON value stored in
that file; none models a missing or unparsable file. -/
def FS := String → Option Json

def FAVORITES_FILE : String := "data/favorites.json"

def NOTES_FILE : String := "data/notes.json"

def PREFERENCES_FILE : String := "data/preferences.json"

def ROOM_CACHE_FILE : String := "data/room_cache.json"

def CLIPS_FILE : String := "data/clips.json"

/-- load_data (src/app.py lines 46-53): the stored value, or the default
when the file is missing or unreadable. -/
def load_data (fs : FS) (file_path : String) (d : Json) : Json :=
  (fs file_path).getD d

/-- save_data (src/app.py lines 55-57): whole-file replace. -/
def save_data (fs : FS) (file_path : String) (d : Json) : FS :=
  fun p => if p = file_path then some d else fs p

/-- jsonGet: Python dict.get(key, default) on a JSON value. -/
def jsonGet (j : Json) (key : String) (d : Json) : Json :=
  match j with
  | Json.obj kvs => (kvs.lookup key).getD d
  | _ => d

/-- get_favorites route (src/app.py lines 2332-2334). -/
def get_favorites (fs : FS) : Json :=
  Json.obj [("favorites", load_data fs FAVORITES_FILE (Json.arr []))]

/-- save_favorites route (src/app.py lines 2336-2340). -/
def save_favorites (body : Json) (fs : FS) : FS :=
  save_data fs FAVORITES_FILE (jsonGet body "favorites" (Json.arr []))

/-- get_notes route (src/app.py lines 2342-2344). -/
def get_notes (fs : FS) : Json :=
  load_data fs NOTES_FILE (Json.obj [])

/-- save_notes route (src/app.py lines 2346-2350). -/
def save_notes (body : Json) (fs : FS) : FS :=
  save_data fs NOTES_FILE body

/-- defaultPreferences: the default dict of the get_preferences route
(src/app.py lines 2352-2363). -/
def defaultPreferences : Json :=
  Json.obj [("dark_mode", Json.bool false), ("quick_filter", Json.str ""),
    ("favorites_filter", Json.str "all"), ("sort_method", Json.str "viewers-desc"),
    ("viewer_min", Json.num 0), ("viewer_max", Json.num 10000),
    ("show_type", Json.str "all"), ("active_tags", Json.arr [])]

/-- get_preferences route (src/app.py lines 2352-2363). -/
def get_preferences (fs : FS) : Json :=
  load_data fs PREFERENCES_FILE defaultPreferences

/-- save_preferences route (src/app.py lines 2365-2369). -/
def save_preferences (body : Json) (fs : FS) : FS :=
  save_data fs PREFERENCES_FILE body

/-- get_clips route (src/app.py lines 2433-2439): the clip list stored under
the username, or the empty list. -/
def get_clips (username : String) (fs : FS) : Json :=
  jsonGet (load_data fs CLIPS_FILE (Json.obj [])) username (Json.arr [])

/-- Clip: one stored clip (src/app.py lines 2415-2421). -/
structure Clip where
  id : String
  timestamp : String
  data : String
deriving DecidableEq

/-- delete_clip (src/app.py lines 2441-2455): for every username of the
stored clips mapping, replace its clip list by the clips whose id differs
from the given clip_id; the rewritten mapping is then saved wholesale. -/
def delete_clip (clip_id : String) (clips : List (String × List Clip)) :
    List (String × List Clip) :=
  clips.map (fun e => (e.1, e.2.filter (fun c => c.id != clip_id)))

/-- C1: the claim says a cold or expired cache makes the index page invoke
the upstream fetch exactly once and persist a fresh envelope. The code
contradicts this: its cache-miss branch binds response to a hard-coded
string and calls response.raise_for_status() on it, raising AttributeError
before any request; evaluated at a missing cache and at an expired one, no
fetch is issued, no envelope is persisted, and the page renders empty. -/
theorem index_cold_cache_fetches_nothing_persists_nothing :
    (index none 0).fetched = false ∧ (index none 0).cacheAfter = none ∧
    (index none 0).rooms = [] ∧
    (index (some (CacheEnv.mk [] 5)) 5).fetched = false ∧
    (index (some (CacheEnv.mk [] 5)) 5).cacheAfter = some (CacheEnv.mk [] 5) := by
  refine ⟨rfl, rfl, rfl, rfl, rfl⟩

/-- C2: when the persisted envelope has expires strictly greater than now,
the cache-check step of index yields exactly the stored rooms, no upstream
request is issued, and the cache file is left as it was. -/
theorem index_valid_cache_serves_cached_rooms (c : CacheEnv) (now : Nat)
    (h : now < c.expires) :
    getRoomList (some c) now = some c.rooms ∧
    (index (some c) now).fetched = false ∧
    (index (some c) now).cacheAfter = some c := by
  have hg : getRoomList (some c) now = some c.rooms := by
    simp [getRoomList, h]
  refine ⟨hg, ?_, ?_⟩ <;> simp [index, hg]

/-- C2 witness: the theorem applied to a concrete envelope not yet expired. -/
theorem index_valid_cache_serves_cached_rooms_witness :
    getRoomList (some (CacheEnv.mk [] 60)) 0 = some [] ∧
    (index (some (CacheEnv.mk [] 60)) 0).fetched = false ∧
    (index (some (CacheEnv.mk [] 60)) 0).cacheAfter = some (CacheEnv.mk [] 60) :=
  index_valid_cache_serves_cached_rooms (CacheEnv.mk [] 60) 0 (by decide)

/-- C3: whenever the cache-check step of index fails to produce rooms (the
branch in which the upstream interaction is attempted and raises), the
except handler renders the page with an empty room list, an empty tag list
and zeroed stats instead of crashing, and the previously persisted cache
file is left untouched. -/
theorem index_failure_renders_empty_and_keeps_cache (cache : Option CacheEnv)
    (now : Nat) (h : getRoomList cache now = none) :
    index cache now = IndexResult.mk [] [] 0 0 cache false := by
  simp [index, h]

/-- C3 witness: the theorem applied to an expired concrete envelope. -/
theorem index_failure_renders_empty_and_keeps_cache_witness :
    index (some (CacheEnv.mk [] 3)) 3 =
      IndexResult.mk [] [] 0 0 (some (CacheEnv.mk [] 3)) false :=
  index_failure_renders_empty_and_keeps_cache (some (CacheEnv.mk [] 3)) 3 (by decide)

/-- C4: the roster parsing step coincides on every input with the procedure
the claim describes (split on the comma, discard the leading count, split
each record on the pipe, skip records with fewer than 3 parts, map the
gender through the fixed table with unrecognized codes passed verbatim); on
the sample input it yields exactly alice/active/Female and bob/active/Male,
and the empty string yields the empty sequence. -/
theorem room_users_parse_matches_roster_spec :
    (∀ raw : PyStr, room_users_parse raw = rosterSpec raw) ∧
    room_users_parse "3,alice|active|f|0,bob|active|m|0".data =
      [ChatUser.mk "alice".data "active".data "Female".data,
       ChatUser.mk "bob".data "active".data "Male".data] ∧
    room_users_parse "".data = [] := by
  refine ⟨?_, by decide, by decide⟩
  intro raw
  have hfun : parse_user_info = rosterSpecRecord := rfl
  by_cases hraw : raw = []
  · subst hraw
    rfl
  · unfold room_users_parse
    rw [if_neg hraw]
    by_cases hlen : 1 < (splitOnChar ',' raw).length
    · rw [if_pos hlen]
      unfold rosterSpec
      rw [hfun]
    · rw [if_neg hlen]
      have hd : (splitOnChar ',' raw).drop 1 = [] :=
        List.drop_eq_nil_of_le (by omega)
      simp [rosterSpec, hd]

/-- C5: a 2-character input yields the two code points obtained by
upper-casing each letter and adding 127397; any input whose length is not 2
(the empty string included) yields the empty string. -/
theorem country_to_flag_spec_conformance :
    (∀ c0 c1 : Char,
      country_to_flag [c0, c1] = [c0.toUpper.toNat + 127397, c1.toUpper.toNat + 127397]) ∧
    (∀ s : PyStr, s.length ≠ 2 → country_to_flag s = []) := by
  refine ⟨fun c0 c1 => rfl, ?_⟩
  intro s h
  cases s with
  | nil => rfl
  | cons a t =>
    cases t with
    | nil => rfl
    | cons b t2 =>
      cases t2 with
      | nil => simp at h
      | cons c t3 => rfl

/-- C5 witness: the theorem applied to the code us (two regional indicator
code points 127482 and 127480) and to the 3-letter code usa. -/
theorem country_to_flag_spec_conformance_witness :
    country_to_flag "us".data = [127482, 127480] ∧ country_to_flag "usa".data = [] :=
  ⟨(country_to_flag_spec_conformance.1 'u' 's').trans (by decide),
   country_to_flag_spec_conformance.2 "usa".data (by decide)⟩

/-- C6: for every number of seconds the formatter produces hours-h minutes-m
when the hour count s / 3600 is at least 1 and minutes-m otherwise, the
minute count being s % 3600 / 60; with the five sample values of the claim. -/
theorem format_duration_spec_conformance :
    (∀ s : Nat, format_duration s =
      if 1 ≤ s / 3600 then
        toString (s / 3600) ++ "h " ++ toString (s % 3600 / 60) ++ "m"
      else toString (s % 3600 / 60) ++ "m") ∧
    format_duration 0 = "0m" ∧ format_duration 59 = "0m" ∧
    format_duration 60 = "1m" ∧ format_duration 3600 = "1h 0m" ∧
    format_duration 3661 = "1h 1m" := by
  refine ⟨?_, by decide, by decide, by decide, by decide, by decide⟩
  intro s
  unfold format_duration
  by_cases h : 0 < s / 3600
  · rw [if_pos h, if_pos (by omega)]
  · rw [if_neg h, if_neg (by omega)]

/-- C7 counterexample: the claim quantifies over all strings, upper-case
variants of f/m/t/c included, and asserts that any code other than the four
lower-case ones returns itself capitalized; on the input F the code returns
Female, not the capitalization F of the input. -/
theorem gender_to_display_uppercase_variant_refutes_claim :
    gender_to_display "F".data = "Female".data ∧
    pyCapitalize "F".data = "F".data ∧
    "Female".data ≠ "F".data := by
  refine ⟨by decide, by decide, by decide⟩

/-- C7 amended: the code lower-cases before the table lookup, so every
case-variant of f/m/t/c maps through the fixed table, and a code whose
lower-casing is none of the four returns itself capitalized. -/
theorem gender_to_display_amended (g : PyStr) :
    (pyLower g = "f".data → gender_to_display g = "Female".data) ∧
    (pyLower g = "m".data → gender_to_display g = "Male".data) ∧
    (pyLower g = "t".data → gender_to_display g = "Trans".data) ∧
    (pyLower g = "c".data → gender_to_display g = "Couple".data) ∧
    (pyLower g ≠ "f".data → pyLower g ≠ "m".data → pyLower g ≠ "t".data →
      pyLower g ≠ "c".data → gender_to_display g = pyCapitalize g) := by
  refine ⟨?_, ?_, ?_, ?_, ?_⟩
  · intro h
    simp [gender_to_display, h]
  · intro h
    simp [gender_to_display, h]
  · intro h
    simp [gender_to_display, h]
  · intro h
    simp [gender_to_display, h]
  · intro h1 h2 h3 h4
    simp [gender_to_display, h1, h2, h3, h4]

/-- C7 witness: the amended theorem applied to the upper-case variant F and
to the unrecognized code xY. -/
theorem gender_to_display_amended_witness :
    gender_to_display "F".data = "Female".data ∧
    gender_to_display "xY".data = pyCapitalize "xY".data :=
  ⟨(gender_to_display_amended "F".data).1 (by decide),
   (gender_to_display_amended "xY".data).2.2.2.2
     (by decide) (by decide) (by decide) (by decide)⟩

/-- C8: each whole-file-replace save followed by the corresponding get
returns the value that was saved: the favorites list, the notes map, the
preferences map and the clips map all round-trip through the store. -/
theorem persistence_round_trip (fs : FS) (favs notes prefs cm l : Json)
    (u : String) :
    get_favorites (save_favorites (Json.obj [("favorites", favs)]) fs) =
      Json.obj [("favorites", favs)] ∧
    get_notes (save_notes notes fs) = notes ∧
    get_preferences (save_preferences prefs fs) = prefs ∧
    load_data (save_data fs CLIPS_FILE cm) CLIPS_FILE (Json.obj []) = cm ∧
    get_clips u (save_data fs CLIPS_FILE (Json.obj [(u, l)])) = l := by
  refine ⟨?_, ?_, ?_, ?_, ?_⟩ <;>
    simp [get_favorites, save_favorites, get_notes, save_notes,
      get_preferences, save_preferences, get_clips, load_data, save_data,
      jsonGet, List.lookup]

/-- C9: delete_clip keeps every username key in place and, for each entry,
replaces the clip list by the subsequence of clips whose id differs from the
given one: the result is a sublist of the original (relative order kept) and
a clip belongs to the result exactly when it belonged to the original and
its id is not the deleted one. -/
theorem delete_clip_removes_exactly_matching_ids
    (clips : List (String × List Clip)) (cid : String) :
    (delete_clip cid clips).map Prod.fst = clips.map Prod.fst ∧
    List.Forall₂ (fun e e' : String × List Clip =>
        e'.1 = e.1 ∧ e'.2.Sublist e.2 ∧
        ∀ c, c ∈ e'.2 ↔ (c ∈ e.2 ∧ c.id ≠ cid))
      clips (delete_clip cid clips) := by
  constructor
  · simp [delete_clip]
  · induction clips with
    | nil => exact List.Forall₂.nil
    | cons e t ih =>
      refine List.Forall₂.cons ⟨rfl, List.filter_sublist _, fun c => ?_⟩ ih
      simp [List.mem_filter]

/-- C10: every room list the index page hands to the template, whichever
branch produced it, is sorted by viewer count (missing num_users read as 0)
in non-increasing order. -/
theorem index_rooms_sorted_by_viewers_desc (cache : Option CacheEnv) (now : Nat) :
    List.Sorted (fun a b : Nat => b ≤ a)
      (((index cache now).rooms).map (fun dr => viewers dr.room)) := by
  cases hg : getRoomList cache now with
  | none => simp [index, hg]
  | some rooms =>
    have h := List.sorted_insertionSort roomOrder rooms
    simp only [index, hg, sortRooms, List.map_map, List.Sorted, List.pairwise_map]
    exact h
